import Mathlib

/-!
Shallow embedding of the tool-dispatch layer of `illustrator/server.py`
(an MCP server exposing Adobe Illustrator automation tools).

The dispatcher `handle_call_tool` routes a tool name plus an optional
argument mapping to one of seven handlers.  Two handlers
(`capture_illustrator`, `run_illustrator_script`) call the Automation
Bridge (win32 COM plus screen capture); the remaining handlers query the
Template Store (`prompt.py`).  Collaborator failures are modelled as
`Except` values; a Python `raise` escaping the dispatcher is modelled by
the dispatcher itself returning `Except.error`.  Filesystem effects
(temporary `.jsx` artifacts) and the number of Automation Bridge
invocations are threaded through an explicit `WorldState`.
-/

namespace Illustrator

/-- A content item of the MCP response protocol: `types.TextContent` or
`types.ImageContent` (mimeType plus base64 data). -/
inductive ContentItem where
  | text (s : String)
  | image (mimeType : String) (data : String)
deriving DecidableEq

/-- Observable world state threaded through the dispatcher: the set of
filesystem paths currently present (only temporary script artifacts are
ever created by this program) and the number of Automation Bridge
invocations performed so far. -/
structure WorldState where
  files : List String
  bridgeCalls : Nat
deriving DecidableEq

/-- The Automation Bridge, as one concrete behaviour: whether the win32
COM subsystem imported successfully (`WIN32_AVAILABLE`), the outcome of a
window-capture attempt (base64 JPEG data, or the exception message), the
path `tempfile.NamedTemporaryFile` hands out for the script artifact, and
the outcome of COM dispatch plus `DoJavaScriptFile` (unit, or the
exception message). -/
structure Bridge where
  win32Available : Bool
  captureResult : Except String String
  tmpName : String
  execResult : Except String Unit

/-- Outcome of the Template Store function `format_advanced_template`:
success with the formatted text, a Python `KeyError` carrying the missing
parameter name, or any other exception with its message.  The dispatcher
in `server.py` catches `KeyError` specially; `str(e)` of a `KeyError`
renders the key surrounded by single quotes. -/
inductive FormatResult where
  | ok (s : String)
  | keyError (key : String)
  | exc (msg : String)
deriving DecidableEq

/-- Modelled from the spec: the Template Store (`prompt.py`, present in
the repository only through its callers in `server.py` and its tests).
Each operation either returns its static content or raises; raising is
modelled as `Except.error` carrying the exception message.
`get_prompt_suggestions` returns an ordered mapping from category label
to a list of suggestion strings; `get_advanced_templates` returns an
ordered mapping from template id to template text with named
placeholders; `format_advanced_template` substitutes named parameters
into a template and signals a missing parameter via `KeyError`. -/
structure TemplateStore where
  get_prompt_suggestions : Except String (List (String × List String))
  get_system_prompt : Except String String
  get_prompting_tips : Except String (List String)
  display_help : Except String String
  get_advanced_templates : Except String (List (String × String))
  format_advanced_template : String → List (String × String) → FormatResult

/-- The argument bag of one tool invocation (`arguments: dict | None`).
Only the keys the dispatcher reads are modelled; a `none` field is an
absent key. -/
structure Arguments where
  code : Option String := none
  category : Option String := none
  template_type : Option String := none
  parameters : Option (List (String × String)) := none

/-- The fixed text returned by both bridge-backed handlers when the win32
COM modules failed to import. -/
def win32_unavailable_text : String :=
  "Win32 COM not available. Please install pywin32 and restart the server."

/-- Embedding of `capture_illustrator`: early return when win32 is
unavailable (no bridge call); otherwise one bridge invocation that either
yields a JPEG image item or, on any exception, a text item with the
failure description. -/
def capture_illustrator (b : Bridge) (w : WorldState) :
    List ContentItem × WorldState :=
  if b.win32Available = false then
    ([ContentItem.text win32_unavailable_text], w)
  else
    match b.captureResult with
    | Except.ok data =>
        ([ContentItem.image "image/jpeg" data],
         { w with bridgeCalls := w.bridgeCalls + 1 })
    | Except.error e =>
        ([ContentItem.text ("Failed to capture screenshot: " ++ e)],
         { w with bridgeCalls := w.bridgeCalls + 1 })

/-- Embedding of `run_illustrator_script`: early return when win32 is
unavailable; otherwise a temporary `.jsx` artifact is created, the script
is handed to Illustrator via COM (one bridge call), and `os.unlink` runs
only after a successful `DoJavaScriptFile` — on an exception the
`except` branch returns without unlinking, so the artifact stays in
`files`. -/
def run_illustrator_script (b : Bridge) (_code : String) (w : WorldState) :
    List ContentItem × WorldState :=
  if b.win32Available = false then
    ([ContentItem.text win32_unavailable_text], w)
  else
    let w1 : WorldState :=
      { files := b.tmpName :: w.files, bridgeCalls := w.bridgeCalls + 1 }
    match b.execResult with
    | Except.ok _ =>
        ([ContentItem.text "Script executed successfully"],
         { w1 with files := w1.files.erase b.tmpName })
    | Except.error e =>
        ([ContentItem.text ("Failed to execute script: " ++ e)], w1)

/-- The hardcoded `category_map` of the `get_prompt_suggestions` branch,
mapping the schema's enum keys to the category labels used by the
Template Store (copied byte-for-byte from the source, including its
mojibake label prefixes). -/
def category_map : List (String × String) :=
  [("basic_shapes", "üé® Basic Shapes & Geometry"),
   ("typography", "üìù Typography & Text"),
   ("logos", "üè¢ Logos & Branding"),
   ("illustrations", "üåÜ Illustrations & Scenes"),
   ("icons", "üé≠ Icons & UI Elements"),
   ("artistic", "üé® Artistic & Creative"),
   ("charts", "üìä Charts & Infographics"),
   ("print", "üè∑Ô∏è Print & Layout")]

/-- Python `repr` of a list of strings, as produced by
`f"... {list(d.keys())}"`: comma-separated single-quoted entries in
square brackets. -/
def pyStrList (xs : List String) : String :=
  "[" ++ String.intercalate ", " (xs.map (fun s => "\x27" ++ s ++ "\x27")) ++ "]"

/-- Ordered concatenation of a list of strings, as built by the
source's `result_text += ...` loops. -/
def str_concat (xs : List String) : String :=
  xs.foldr (fun a b => a ++ b) ""

/-- `sub` occurs as a contiguous piece of `s`. -/
def contains_piece (s sub : String) : Prop :=
  ∃ p q, s = p ++ (sub ++ q)

/-- The bullet prefix of one suggestion line, copied from the source. -/
def bullet_line (s : String) : String :=
  "‚Ä¢ " ++ s ++ "\n"

/-- The header line of the full `get_prompt_suggestions` listing,
copied from the source. -/
def suggestions_header : String :=
  "# üé® Illustrator Prompt Suggestions\n\n"

/-- One category block of the full `get_prompt_suggestions` listing:
`## ` heading with the category label, one bullet per prompt, then a
blank line. -/
def render_category (p : String × List String) : String :=
  "## " ++ p.1 ++ "\n\n" ++
  str_concat (p.2.map bullet_line) ++ "\n"

/-- The full `get_prompt_suggestions` listing: header followed by every
category block in the store's order. -/
def render_all (sugg : List (String × List String)) : String :=
  suggestions_header ++
  str_concat (sugg.map render_category)

/-- The category-filtered `get_prompt_suggestions` listing: bold label
heading followed by one bullet per suggestion. -/
def render_filtered (fc : String) (items : List String) : String :=
  "**" ++ fc ++ "**\n\n" ++
  str_concat (items.map bullet_line)

/-- The unknown-category message, enumerating the valid category keys
(Python `repr` of `list(category_map.keys())`). -/
def category_not_found (c : String) : String :=
  "Category \x27" ++ c ++ "\x27 not found. Available categories: " ++
  pyStrList (category_map.map Prod.fst)

/-- Python `str.title()` restricted to what the dispatcher feeds it
(ASCII template ids with underscores replaced by spaces): uppercase a
letter that does not follow a letter, lowercase one that does. -/
def pyTitleAux : Bool → List Char → List Char
  | _, [] => []
  | prevAlpha, c :: cs =>
      (if c.isAlpha then (if prevAlpha then c.toLower else c.toUpper) else c) ::
        pyTitleAux c.isAlpha cs

/-- Python `str.title()` on a whole string. -/
def pyTitle (s : String) : String :=
  String.mk (pyTitleAux false s.data)

/-- The heading the `get_advanced_template` branch prints above a
template: `**{template_type.replace('_', ' ').title()} Template:**`. -/
def template_heading (tt : String) : String :=
  "**" ++ pyTitle (tt.replace "_" " ") ++ " Template:**\n\n"

/-- The raw-template response: heading plus the template text with its
placeholders intact. -/
def raw_template_text (tt template : String) : String :=
  template_heading tt ++ template

/-- The missing-parameter fallback of `get_advanced_template`: heading,
the raw template, and the missing key rendered as Python prints a
`KeyError` (the key in single quotes). -/
def missing_param_text (tt template k : String) : String :=
  template_heading tt ++ template ++ "\n\n**Missing parameter:** \x27" ++ k ++
  "\x27\nPlease provide the required parameters to fill in the template."

/-- The unknown-template message, listing the template ids of the
store's current catalog (Python `repr` of `list(templates.keys())`). -/
def template_not_found (tt : String) (keys : List String) : String :=
  "Template \x27" ++ tt ++ "\x27 not found. Available templates: " ++
  pyStrList keys

/-- The header line of the `get_prompting_tips` response. -/
def tips_header : String :=
  "# üí° Prompting Tips for Adobe Illustrator\n\n"

/-- The `get_prompting_tips` response text: header plus one line per
tip, in order. -/
def render_tips (tips : List String) : String :=
  tips_header ++ str_concat (tips.map (fun t => t ++ "\n"))

/-- The seven tool names registered by `handle_list_tools`, in
registration order. -/
def registered_tool_names : List String :=
  ["view", "run", "get_prompt_suggestions", "get_system_prompt",
   "get_prompting_tips", "get_advanced_template", "help"]

/-- Embedding of the dispatcher `handle_call_tool`.  The first component
is `Except.ok items` for every recognized tool name (all collaborator
failures are converted into text items inside the branches) and
`Except.error` exactly for the final `raise ValueError(f"Unknown tool:
{name}")`.  The second component is the world state after the call. -/
def handle_call_tool (b : Bridge) (ts : TemplateStore)
    (name : String) (args : Option Arguments) (w : WorldState) :
    Except String (List ContentItem) × WorldState :=
  if name = "view" then
    let r := capture_illustrator b w
    (Except.ok r.1, r.2)
  else if name = "run" then
    match args.bind Arguments.code with
    | none => (Except.ok [ContentItem.text "No code provided"], w)
    | some code =>
        let r := run_illustrator_script b code w
        (Except.ok r.1, r.2)
  else if name = "get_prompt_suggestions" then
    match ts.get_prompt_suggestions with
    | Except.error e => (Except.ok [ContentItem.text ("Error: " ++ e)], w)
    | Except.ok suggestions =>
        match args.bind Arguments.category with
        | some c =>
            if c = "" then
              (Except.ok [ContentItem.text (render_all suggestions)], w)
            else
              match List.lookup c category_map with
              | some fc =>
                  match List.lookup fc suggestions with
                  | some items =>
                      (Except.ok [ContentItem.text (render_filtered fc items)], w)
                  | none =>
                      (Except.ok [ContentItem.text (category_not_found c)], w)
              | none =>
                  (Except.ok [ContentItem.text (category_not_found c)], w)
        | none =>
            (Except.ok [ContentItem.text (render_all suggestions)], w)
  else if name = "get_system_prompt" then
    match ts.get_system_prompt with
    | Except.ok s => (Except.ok [ContentItem.text s], w)
    | Except.error e => (Except.ok [ContentItem.text ("Error: " ++ e)], w)
  else if name = "get_prompting_tips" then
    match ts.get_prompting_tips with
    | Except.ok tips => (Except.ok [ContentItem.text (render_tips tips)], w)
    | Except.error e => (Except.ok [ContentItem.text ("Error: " ++ e)], w)
  else if name = "get_advanced_template" then
    let template_type := args.bind Arguments.template_type
    let parameters := (args.bind Arguments.parameters).getD []
    if template_type.getD "" = "" then
      (Except.ok [ContentItem.text "Template type is required"], w)
    else
      match template_type with
      | none => (Except.ok [ContentItem.text "Template type is required"], w)
      | some tt =>
          match ts.get_advanced_templates with
          | Except.error e => (Except.ok [ContentItem.text ("Error: " ++ e)], w)
          | Except.ok templates =>
              match List.lookup tt templates with
              | some template =>
                  if parameters ≠ [] then
                    match ts.format_advanced_template tt parameters with
                    | FormatResult.ok formatted =>
                        (Except.ok [ContentItem.text formatted], w)
                    | FormatResult.keyError k =>
                        (Except.ok [ContentItem.text (missing_param_text tt template k)], w)
                    | FormatResult.exc e =>
                        (Except.ok [ContentItem.text ("Error: " ++ e)], w)
                  else
                    (Except.ok [ContentItem.text (raw_template_text tt template)], w)
              | none =>
                  (Except.ok
                    [ContentItem.text (template_not_found tt (templates.map Prod.fst))], w)
  else if name = "help" then
    match ts.display_help with
    | Except.ok s => (Except.ok [ContentItem.text s], w)
    | Except.error e => (Except.ok [ContentItem.text ("Error: " ++ e)], w)
  else
    (Except.error ("Unknown tool: " ++ name), w)

/-! ## Test fixtures

Concrete bridges, stores and states used only to instantiate the general
theorems below at concrete inputs.  The template content itself is a
non-goal of the program's contract, so any concrete store exercises the
dispatcher; `sample_format` is modelled from the spec of the Template
Store's `format_advanced_template` (substitute named parameters, signal a
`KeyError` naming the first missing required parameter, and reject
unknown template ids). -/

/-- Sample `logo_design` template text, with named placeholders. -/
def logo_template : String :=
  "Design a logo for \x7bcompany_name\x7d in the \x7bindustry\x7d industry, " ++
  "\x7bstyle\x7d style, colors \x7bcolors\x7d, elements \x7belements\x7d, size \x7bsize\x7d."

/-- Sample `illustration` template text, with named placeholders. -/
def illustration_template : String :=
  "Create an illustration of \x7bsubject\x7d in \x7bstyle\x7d style."

/-- Sample advanced-template catalog (placeholder syntax as in Python
format strings). -/
def sample_templates : List (String × String) :=
  [("logo_design", logo_template),
   ("illustration", illustration_template)]

/-- Required parameter names per sample template. -/
def sample_template_params : List (String × List String) :=
  [("logo_design", ["company_name", "industry", "style", "colors", "elements", "size"]),
   ("illustration", ["subject", "style"])]

/-- Substitute every supplied parameter into the placeholder syntax. -/
def substitute_params (template : String) (ps : List (String × String)) : String :=
  ps.foldl (fun acc kv => acc.replace ("\x7b" ++ kv.1 ++ "\x7d") kv.2) template

/-- Modelled from the spec: `format_advanced_template` of the Template
Store — substitution with a missing-parameter signal (`KeyError`) and an
unknown-template signal. -/
def sample_format (tt : String) (ps : List (String × String)) : FormatResult :=
  match List.lookup tt sample_templates with
  | none => FormatResult.exc ("Unknown template type: " ++ tt)
  | some template =>
      match ((List.lookup tt sample_template_params).getD []).find?
          (fun k => (List.lookup k ps).isNone) with
      | some k => FormatResult.keyError k
      | none => FormatResult.ok (substitute_params template ps)

/-- Sample prompt-suggestion catalog. -/
def sample_suggestions : List (String × List String) :=
  [("Shapes", ["Create a blue circle", "Draw a red square"]),
   ("Logos", ["Design a minimalist logo"])]

/-- A Template Store whose every operation succeeds. -/
def sampleStore : TemplateStore :=
  { get_prompt_suggestions := Except.ok sample_suggestions
    get_system_prompt := Except.ok "You are an expert Illustrator assistant."
    get_prompting_tips := Except.ok ["Be specific about sizes.", "Name exact colors."]
    display_help := Except.ok "Illustrator MCP server help text."
    get_advanced_templates := Except.ok sample_templates
    format_advanced_template := sample_format }

/-- A Template Store whose every operation raises. -/
def errorStore : TemplateStore :=
  { get_prompt_suggestions := Except.error "store unavailable"
    get_system_prompt := Except.error "store unavailable"
    get_prompting_tips := Except.error "store unavailable"
    display_help := Except.error "store unavailable"
    get_advanced_templates := Except.error "store unavailable"
    format_advanced_template := fun _ _ => FormatResult.exc "store unavailable" }

/-- A bridge whose capture and execution both succeed. -/
def okBridge : Bridge :=
  { win32Available := true
    captureResult := Except.ok "QkFTRTY0REFUQQ=="
    tmpName := "/tmp/tmpab12cd.jsx"
    execResult := Except.ok () }

/-- A bridge whose capture and execution both raise. -/
def failBridge : Bridge :=
  { win32Available := true
    captureResult := Except.error "COM dispatch failed"
    tmpName := "/tmp/tmpab12cd.jsx"
    execResult := Except.error "COM dispatch failed" }

/-- A bridge on a host without the win32 COM modules. -/
def noWin32Bridge : Bridge :=
  { win32Available := false
    captureResult := Except.error "unavailable"
    tmpName := "/tmp/tmpab12cd.jsx"
    execResult := Except.error "unavailable" }

/-- The empty initial world: no files, no bridge calls. -/
def w0 : WorldState := { files := [], bridgeCalls := 0 }

/-! ## Dispatch-equation lemmas

One definitional equation per registered tool name, so that claim proofs
can rewrite the dispatcher at a literal name. -/

theorem dispatch_view_eq (b : Bridge) (ts : TemplateStore)
    (args : Option Arguments) (w : WorldState) :
    handle_call_tool b ts "view" args w =
      (Except.ok (capture_illustrator b w).1, (capture_illustrator b w).2) := rfl

theorem dispatch_run_eq (b : Bridge) (ts : TemplateStore)
    (args : Option Arguments) (w : WorldState) :
    handle_call_tool b ts "run" args w =
      (match args.bind Arguments.code with
       | none => (Except.ok [ContentItem.text "No code provided"], w)
       | some code =>
           (Except.ok (run_illustrator_script b code w).1,
            (run_illustrator_script b code w).2)) := rfl

theorem dispatch_suggestions_eq (b : Bridge) (ts : TemplateStore)
    (args : Option Arguments) (w : WorldState) :
    handle_call_tool b ts "get_prompt_suggestions" args w =
      (match ts.get_prompt_suggestions with
       | Except.error e => (Except.ok [ContentItem.text ("Error: " ++ e)], w)
       | Except.ok suggestions =>
           match args.bind Arguments.category with
           | some c =>
               if c = "" then
                 (Except.ok [ContentItem.text (render_all suggestions)], w)
               else
                 match List.lookup c category_map with
                 | some fc =>
                     match List.lookup fc suggestions with
                     | some items =>
                         (Except.ok [ContentItem.text (render_filtered fc items)], w)
                     | none =>
                         (Except.ok [ContentItem.text (category_not_found c)], w)
                 | none =>
                     (Except.ok [ContentItem.text (category_not_found c)], w)
           | none =>
               (Except.ok [ContentItem.text (render_all suggestions)], w)) := rfl

theorem dispatch_system_prompt_eq (b : Bridge) (ts : TemplateStore)
    (args : Option Arguments) (w : WorldState) :
    handle_call_tool b ts "get_system_prompt" args w =
      (match ts.get_system_prompt with
       | Except.ok s => (Except.ok [ContentItem.text s], w)
       | Except.error e => (Except.ok [ContentItem.text ("Error: " ++ e)], w)) := rfl

theorem dispatch_tips_eq (b : Bridge) (ts : TemplateStore)
    (args : Option Arguments) (w : WorldState) :
    handle_call_tool b ts "get_prompting_tips" args w =
      (match ts.get_prompting_tips with
       | Except.ok tips => (Except.ok [ContentItem.text (render_tips tips)], w)
       | Except.error e => (Except.ok [ContentItem.text ("Error: " ++ e)], w)) := rfl

theorem dispatch_advanced_eq (b : Bridge) (ts : TemplateStore)
    (args : Option Arguments) (w : WorldState) :
    handle_call_tool b ts "get_advanced_template" args w =
      (if (args.bind Arguments.template_type).getD "" = "" then
        (Except.ok [ContentItem.text "Template type is required"], w)
      else
        match args.bind Arguments.template_type with
        | none => (Except.ok [ContentItem.text "Template type is required"], w)
        | some tt =>
            match ts.get_advanced_templates with
            | Except.error e => (Except.ok [ContentItem.text ("Error: " ++ e)], w)
            | Except.ok templates =>
                match List.lookup tt templates with
                | some template =>
                    if (args.bind Arguments.parameters).getD [] ≠ [] then
                      match ts.format_advanced_template tt
                          ((args.bind Arguments.parameters).getD []) with
                      | FormatResult.ok formatted =>
                          (Except.ok [ContentItem.text formatted], w)
                      | FormatResult.keyError k =>
                          (Except.ok
                            [ContentItem.text (missing_param_text tt template k)], w)
                      | FormatResult.exc e =>
                          (Except.ok [ContentItem.text ("Error: " ++ e)], w)
                    else
                      (Except.ok [ContentItem.text (raw_template_text tt template)], w)
                | none =>
                    (Except.ok
                      [ContentItem.text
                        (template_not_found tt (templates.map Prod.fst))], w)) := rfl

theorem dispatch_help_eq (b : Bridge) (ts : TemplateStore)
    (args : Option Arguments) (w : WorldState) :
    handle_call_tool b ts "help" args w =
      (match ts.display_help with
       | Except.ok s => (Except.ok [ContentItem.text s], w)
       | Except.error e => (Except.ok [ContentItem.text ("Error: " ++ e)], w)) := rfl

theorem dispatch_unknown_eq (b : Bridge) (ts : TemplateStore)
    (name : String) (args : Option Arguments) (w : WorldState)
    (h : name ∉ registered_tool_names) :
    handle_call_tool b ts name args w =
      (Except.error ("Unknown tool: " ++ name), w) := by
  simp only [registered_tool_names, List.mem_cons, List.not_mem_nil, or_false,
    not_or] at h
  obtain ⟨h1, h2, h3, h4, h5, h6, h7⟩ := h
  unfold handle_call_tool
  rw [if_neg h1, if_neg h2, if_neg h3, if_neg h4, if_neg h5, if_neg h6, if_neg h7]

/-! ## Shape lemmas -/

theorem capture_shape (b : Bridge) (w : WorldState) :
    ∃ item, (capture_illustrator b w).1 = [item] ∧
      (∀ m d, item = ContentItem.image m d →
        b.win32Available = true ∧ b.captureResult = Except.ok d ∧
          m = "image/jpeg") := by
  unfold capture_illustrator
  split
  · exact ⟨_, rfl, fun m d hmd => by cases hmd⟩
  · rename_i hb
    split
    · rename_i data hc
      refine ⟨_, rfl, fun m d hmd => ?_⟩
      cases hmd
      exact ⟨by simpa using hb, hc, rfl⟩
    · exact ⟨_, rfl, fun m d hmd => by cases hmd⟩

theorem run_script_shape (b : Bridge) (code : String) (w : WorldState) :
    ∃ s, (run_illustrator_script b code w).1 = [ContentItem.text s] := by
  unfold run_illustrator_script
  split
  · exact ⟨_, rfl⟩
  · split
    · exact ⟨_, rfl⟩
    · exact ⟨_, rfl⟩

theorem suggestions_shape (b : Bridge) (ts : TemplateStore)
    (args : Option Arguments) (w : WorldState) :
    ∃ s, (handle_call_tool b ts "get_prompt_suggestions" args w).1 =
      Except.ok [ContentItem.text s] := by
  rw [dispatch_suggestions_eq]
  repeat' split
  all_goals exact ⟨_, rfl⟩

theorem advanced_shape (b : Bridge) (ts : TemplateStore)
    (args : Option Arguments) (w : WorldState) :
    ∃ s, (handle_call_tool b ts "get_advanced_template" args w).1 =
      Except.ok [ContentItem.text s] := by
  rw [dispatch_advanced_eq]
  repeat' split
  all_goals exact ⟨_, rfl⟩

theorem dispatch_recognized_shape (b : Bridge) (ts : TemplateStore)
    (name : String) (args : Option Arguments) (w : WorldState)
    (h : name ∈ registered_tool_names) :
    ∃ item, (handle_call_tool b ts name args w).1 = Except.ok [item] ∧
      (∀ m d, item = ContentItem.image m d →
        name = "view" ∧ b.win32Available = true ∧
          b.captureResult = Except.ok d ∧ m = "image/jpeg") := by
  simp only [registered_tool_names, List.mem_cons, List.not_mem_nil,
    or_false] at h
  rcases h with rfl | rfl | rfl | rfl | rfl | rfl | rfl
  · rw [dispatch_view_eq]
    obtain ⟨item, hi, himg⟩ := capture_shape b w
    exact ⟨item, by rw [hi], fun m d hmd =>
      ⟨rfl, (himg m d hmd).1, (himg m d hmd).2.1, (himg m d hmd).2.2⟩⟩
  · rw [dispatch_run_eq]
    split
    · exact ⟨_, rfl, fun m d hmd => by cases hmd⟩
    · rename_i code hc
      obtain ⟨s, hs⟩ := run_script_shape b code w
      exact ⟨ContentItem.text s, by simp [hs], fun m d hmd => by cases hmd⟩
  · obtain ⟨s, hs⟩ := suggestions_shape b ts args w
    exact ⟨ContentItem.text s, hs, fun m d hmd => by cases hmd⟩
  · rw [dispatch_system_prompt_eq]
    split
    · exact ⟨_, rfl, fun m d hmd => by cases hmd⟩
    · exact ⟨_, rfl, fun m d hmd => by cases hmd⟩
  · rw [dispatch_tips_eq]
    split
    · exact ⟨_, rfl, fun m d hmd => by cases hmd⟩
    · exact ⟨_, rfl, fun m d hmd => by cases hmd⟩
  · obtain ⟨s, hs⟩ := advanced_shape b ts args w
    exact ⟨ContentItem.text s, hs, fun m d hmd => by cases hmd⟩
  · rw [dispatch_help_eq]
    split
    · exact ⟨_, rfl, fun m d hmd => by cases hmd⟩
    · exact ⟨_, rfl, fun m d hmd => by cases hmd⟩

theorem str_concat_split {α : Type} (g : α → String) (x : α)
    (xs : List α) (hx : x ∈ xs) :
    ∃ p q, str_concat (xs.map g) = p ++ (g x ++ q) := by
  induction xs with
  | nil => cases hx
  | cons a l ih =>
      rcases List.mem_cons.mp hx with rfl | h
      · refine ⟨"", str_concat (l.map g), ?_⟩
        simp only [str_concat, List.map_cons, List.foldr_cons]
        rw [String.empty_append]
      · obtain ⟨p, q, hpq⟩ := ih h
        refine ⟨g a ++ p, q, ?_⟩
        simp only [str_concat, List.map_cons, List.foldr_cons] at hpq ⊢
        rw [hpq, String.append_assoc]

/-! ## Claim theorems -/

/-- C1: for every recognized tool name, any failure raised by the
Automation Bridge or the Template Store during dispatch is caught at the
tool boundary — the universal quantification over `Bridge` and
`TemplateStore` covers every collaborator failure (each modelled as an
`Except.error` the branch converts into a text item), so dispatch of a
recognized name always returns `Except.ok` content and never propagates a
collaborator exception. -/
theorem dispatch_recognized_catches_failures (b : Bridge)
    (ts : TemplateStore) (name : String) (args : Option Arguments)
    (w : WorldState) (h : name ∈ registered_tool_names) :
    ∃ items, (handle_call_tool b ts name args w).1 = Except.ok items := by
  obtain ⟨item, hi, -⟩ := dispatch_recognized_shape b ts name args w h
  exact ⟨[item], hi⟩

/-- Witness for C1 at a bridge and store whose every operation raises. -/
theorem dispatch_recognized_catches_failures_witness :
    ∃ items, (handle_call_tool failBridge errorStore "run"
      (some { code := some "app.documents.add();" }) w0).1 =
        Except.ok items :=
  dispatch_recognized_catches_failures failBridge errorStore "run"
    (some { code := some "app.documents.add();" }) w0 (by decide)

/-- C2: dispatching a name outside the seven registered tool names
yields the hard-error signal (`raise ValueError`, embedded as
`Except.error`) carrying "Unknown tool: ..." rather than a content
sequence, and this is the only case in which dispatch signals an error. -/
theorem dispatch_unknown_hard_error (b : Bridge) (ts : TemplateStore)
    (name : String) (args : Option Arguments) (w : WorldState) :
    (name ∉ registered_tool_names →
      handle_call_tool b ts name args w =
        (Except.error ("Unknown tool: " ++ name), w)) ∧
    (∀ e, (handle_call_tool b ts name args w).1 = Except.error e →
      name ∉ registered_tool_names) := by
  constructor
  · exact fun h => dispatch_unknown_eq b ts name args w h
  · intro e he hmem
    obtain ⟨item, hi, -⟩ := dispatch_recognized_shape b ts name args w hmem
    rw [hi] at he
    exact Except.noConfusion he

/-- Witness for C2 at a concrete unregistered name. -/
theorem dispatch_unknown_hard_error_witness :
    handle_call_tool okBridge sampleStore "export_png" none w0 =
      (Except.error "Unknown tool: export_png", w0) :=
  (dispatch_unknown_hard_error okBridge sampleStore "export_png" none w0).1
    (by decide)

/-- C3 (refutation at the failing input): a `run` invocation whose
script execution raises returns its failure text but leaves the
temporary `.jsx` artifact on the filesystem — the `except` branch
returns without reaching `os.unlink` — whereas the success path does
remove it before returning. -/
theorem run_failure_leaves_artifact :
    (handle_call_tool failBridge sampleStore "run"
        (some { code := some "app.documents.add();" }) w0).1 =
      Except.ok
        [ContentItem.text "Failed to execute script: COM dispatch failed"] ∧
    (handle_call_tool failBridge sampleStore "run"
        (some { code := some "app.documents.add();" }) w0).2.files =
      ["/tmp/tmpab12cd.jsx"] ∧
    (handle_call_tool okBridge sampleStore "run"
        (some { code := some "app.documents.add();" }) w0).2.files = [] :=
  ⟨rfl, rfl, rfl⟩

/-- C4: `run` with an absent argument mapping, or a mapping without a
`code` key, returns exactly the single text item "No code provided" and
returns the world unchanged — in particular `bridgeCalls` is untouched,
so zero Automation Bridge calls are performed. -/
theorem run_missing_code_soft_failure (b : Bridge) (ts : TemplateStore)
    (args : Option Arguments) (w : WorldState)
    (h : args.bind Arguments.code = none) :
    handle_call_tool b ts "run" args w =
      (Except.ok [ContentItem.text "No code provided"], w) := by
  rw [dispatch_run_eq, h]

/-- Witness for C4: absent mapping, and a mapping with no `code` key. -/
theorem run_missing_code_soft_failure_witness :
    handle_call_tool okBridge sampleStore "run" none w0 =
      (Except.ok [ContentItem.text "No code provided"], w0) ∧
    handle_call_tool okBridge sampleStore "run"
      (some { category := some "logos" }) w0 =
      (Except.ok [ContentItem.text "No code provided"], w0) :=
  ⟨run_missing_code_soft_failure okBridge sampleStore none w0 rfl,
   run_missing_code_soft_failure okBridge sampleStore
     (some { category := some "logos" }) w0 rfl⟩

/-- C5: for every recognized tool name and every argument bag (also the
absent one) and every collaborator behaviour, dispatch returns a
non-empty content sequence. -/
theorem dispatch_result_nonempty (b : Bridge) (ts : TemplateStore)
    (name : String) (args : Option Arguments) (w : WorldState)
    (h : name ∈ registered_tool_names) :
    ∃ items, (handle_call_tool b ts name args w).1 = Except.ok items ∧
      items ≠ [] := by
  obtain ⟨item, hi, -⟩ := dispatch_recognized_shape b ts name args w h
  exact ⟨[item], hi, by simp⟩

/-- Witness for C5 at a failing bridge and absent arguments. -/
theorem dispatch_result_nonempty_witness :
    ∃ items, (handle_call_tool noWin32Bridge errorStore "view" none w0).1 =
      Except.ok items ∧ items ≠ [] :=
  dispatch_result_nonempty noWin32Bridge errorStore "view" none w0 (by decide)

/-- C6: `get_advanced_template` on a known template id with a supplied
(nonempty) parameters mapping whose substitution reports a missing
required key returns one text item that contains both the raw template
text and the missing key's name, instead of raising or discarding the
template. -/
theorem advanced_template_missing_param_fallback (b : Bridge)
    (ts : TemplateStore) (args : Option Arguments) (w : WorldState)
    (tt template k : String) (templates : List (String × String))
    (h1 : args.bind Arguments.template_type = some tt) (h2 : tt ≠ "")
    (h3 : ts.get_advanced_templates = Except.ok templates)
    (h4 : List.lookup tt templates = some template)
    (h5 : (args.bind Arguments.parameters).getD [] ≠ [])
    (h6 : ts.format_advanced_template tt
      ((args.bind Arguments.parameters).getD []) = FormatResult.keyError k) :
    handle_call_tool b ts "get_advanced_template" args w =
      (Except.ok [ContentItem.text (missing_param_text tt template k)], w) ∧
    contains_piece (missing_param_text tt template k) template ∧
    contains_piece (missing_param_text tt template k) k := by
  have h0 : ¬((args.bind Arguments.template_type).getD "" = "") := by
    rw [h1]
    simpa using h2
  refine ⟨?_, ?_, ?_⟩
  · rw [dispatch_advanced_eq, if_neg h0]
    simp only [h1, h3, h4]
    rw [if_pos h5]
    simp only [h6]
  · exact ⟨template_heading tt,
      "\n\n**Missing parameter:** \x27" ++ k ++
        "\x27\nPlease provide the required parameters to fill in the template.",
      by unfold missing_param_text; simp [String.append_assoc]⟩
  · exact ⟨template_heading tt ++ (template ++ "\n\n**Missing parameter:** \x27"),
      "\x27\nPlease provide the required parameters to fill in the template.",
      by unfold missing_param_text; simp [String.append_assoc]⟩

/-- Witness for C6: `logo_design` with the `company_name` parameter
omitted from a nonempty parameters mapping. -/
theorem advanced_template_missing_param_fallback_witness :
    handle_call_tool okBridge sampleStore "get_advanced_template"
      (some { template_type := some "logo_design",
              parameters := some [("industry", "technology")] }) w0 =
      (Except.ok [ContentItem.text
        (missing_param_text "logo_design" logo_template "company_name")], w0) ∧
    contains_piece (missing_param_text "logo_design" logo_template "company_name")
      logo_template ∧
    contains_piece (missing_param_text "logo_design" logo_template "company_name")
      "company_name" :=
  advanced_template_missing_param_fallback okBridge sampleStore
    (some { template_type := some "logo_design",
            parameters := some [("industry", "technology")] }) w0
    "logo_design" logo_template "company_name" sample_templates
    rfl (by decide) rfl rfl (by simp) rfl

/-- C7: `get_advanced_template` with an absent (or Python-falsy empty)
`template_type` returns the fixed error text for every Template Store —
in particular for one whose catalog lookup raises, which shows the store
is not queried — and with an unknown `template_type` returns a text item
listing exactly the template ids of the store's current catalog. -/
theorem advanced_template_type_validation (b : Bridge) (ts : TemplateStore)
    (args : Option Arguments) (w : WorldState) :
    ((args.bind Arguments.template_type).getD "" = "" →
      handle_call_tool b ts "get_advanced_template" args w =
        (Except.ok [ContentItem.text "Template type is required"], w)) ∧
    (∀ tt templates, args.bind Arguments.template_type = some tt → tt ≠ "" →
      ts.get_advanced_templates = Except.ok templates →
      List.lookup tt templates = none →
      handle_call_tool b ts "get_advanced_template" args w =
        (Except.ok [ContentItem.text
          (template_not_found tt (templates.map Prod.fst))], w)) := by
  constructor
  · intro h0
    rw [dispatch_advanced_eq, if_pos h0]
  · intro tt templates h1 h2 h3 h4
    have h0 : ¬((args.bind Arguments.template_type).getD "" = "") := by
      rw [h1]
      simpa using h2
    rw [dispatch_advanced_eq, if_neg h0]
    simp only [h1, h3, h4]

/-- Witness for C7: absent `template_type` against a raising store, and
an unknown `template_type` against the sample catalog. -/
theorem advanced_template_type_validation_witness :
    handle_call_tool okBridge errorStore "get_advanced_template" none w0 =
      (Except.ok [ContentItem.text "Template type is required"], w0) ∧
    handle_call_tool okBridge sampleStore "get_advanced_template"
      (some { template_type := some "nonexistent_template" }) w0 =
      (Except.ok [ContentItem.text
        (template_not_found "nonexistent_template"
          ["logo_design", "illustration"])], w0) :=
  ⟨(advanced_template_type_validation okBridge errorStore none w0).1 rfl,
   (advanced_template_type_validation okBridge sampleStore
      (some { template_type := some "nonexistent_template" }) w0).2
      "nonexistent_template" sample_templates rfl (by decide) rfl rfl⟩

/-- C8: `get_prompt_suggestions` with a category key outside the
recognized set returns the message enumerating the valid category keys;
with no category it returns the single text item rendering every
category the store exposes, in the store's order, and that rendering
contains each category's heading. -/
theorem prompt_suggestions_category_validation (b : Bridge)
    (ts : TemplateStore) (args : Option Arguments) (w : WorldState)
    (sugg : List (String × List String))
    (hok : ts.get_prompt_suggestions = Except.ok sugg) :
    (∀ c, args.bind Arguments.category = some c → c ≠ "" →
      List.lookup c category_map = none →
      handle_call_tool b ts "get_prompt_suggestions" args w =
        (Except.ok [ContentItem.text (category_not_found c)], w)) ∧
    (args.bind Arguments.category = none →
      handle_call_tool b ts "get_prompt_suggestions" args w =
        (Except.ok [ContentItem.text (render_all sugg)], w)) ∧
    (∀ p, p ∈ sugg →
      contains_piece (render_all sugg) ("## " ++ (p.1 ++ "\n\n"))) := by
  refine ⟨?_, ?_, ?_⟩
  · intro c h1 h2 h3
    rw [dispatch_suggestions_eq]
    simp only [hok, h1]
    rw [if_neg h2]
    simp only [h3]
  · intro h1
    rw [dispatch_suggestions_eq]
    simp only [hok, h1]
  · intro p hp
    obtain ⟨q1, q2, hq⟩ := str_concat_split render_category p sugg hp
    refine ⟨suggestions_header ++ q1,
      str_concat (p.2.map bullet_line) ++ ("\n" ++ q2), ?_⟩
    unfold render_all
    rw [hq]
    unfold render_category
    simp [String.append_assoc]

/-- Witness for C8: an unrecognized category and the category-less full
listing, against the sample store. -/
theorem prompt_suggestions_category_validation_witness :
    handle_call_tool okBridge sampleStore "get_prompt_suggestions"
      (some { category := some "animals" }) w0 =
      (Except.ok [ContentItem.text (category_not_found "animals")], w0) ∧
    handle_call_tool okBridge sampleStore "get_prompt_suggestions" none w0 =
      (Except.ok [ContentItem.text (render_all sample_suggestions)], w0) ∧
    contains_piece (render_all sample_suggestions)
      ("## " ++ ("Shapes" ++ "\n\n")) :=
  ⟨(prompt_suggestions_category_validation okBridge sampleStore
      (some { category := some "animals" }) w0 sample_suggestions rfl).1
      "animals" rfl (by decide) rfl,
   (prompt_suggestions_category_validation okBridge sampleStore none w0
      sample_suggestions rfl).2.1 rfl,
   (prompt_suggestions_category_validation okBridge sampleStore none w0
      sample_suggestions rfl).2.2
      ("Shapes", ["Create a blue circle", "Draw a red square"]) (by decide)⟩

/-- C9: when the win32 automation subsystem is unavailable, both `view`
and `run` (with a `code` argument) return the same fixed informational
text and return the world unchanged — no capture, no script execution,
no bridge call, no artifact. -/
theorem win32_unavailable_uniform (b : Bridge) (ts : TemplateStore)
    (argsV argsR : Option Arguments) (code : String) (w : WorldState)
    (hb : b.win32Available = false)
    (hc : argsR.bind Arguments.code = some code) :
    handle_call_tool b ts "view" argsV w =
      (Except.ok [ContentItem.text win32_unavailable_text], w) ∧
    handle_call_tool b ts "run" argsR w =
      (Except.ok [ContentItem.text win32_unavailable_text], w) := by
  constructor
  · rw [dispatch_view_eq]
    unfold capture_illustrator
    rw [if_pos hb]
  · rw [dispatch_run_eq, hc]
    show (Except.ok (run_illustrator_script b code w).1,
      (run_illustrator_script b code w).2) = _
    unfold run_illustrator_script
    rw [if_pos hb]

/-- Witness for C9 at the no-win32 bridge. -/
theorem win32_unavailable_uniform_witness :
    handle_call_tool noWin32Bridge sampleStore "view" none w0 =
      (Except.ok [ContentItem.text win32_unavailable_text], w0) ∧
    handle_call_tool noWin32Bridge sampleStore "run"
      (some { code := some "app.documents.add();" }) w0 =
      (Except.ok [ContentItem.text win32_unavailable_text], w0) :=
  win32_unavailable_uniform noWin32Bridge sampleStore none
    (some { code := some "app.documents.add();" }) "app.documents.add();" w0
    rfl rfl

/-- C10: for every recognized tool name and every argument bag the
dispatcher returns exactly one content item, and that item is an image
only when the tool is `view`, win32 is available and the capture
succeeded (with MIME type `image/jpeg`); every other combination yields
a single text item, the `ContentItem` type having only these two
constructors. -/
theorem dispatch_single_item_image_only_view (b : Bridge)
    (ts : TemplateStore) (name : String) (args : Option Arguments)
    (w : WorldState) (h : name ∈ registered_tool_names) :
    ∃ item, (handle_call_tool b ts name args w).1 = Except.ok [item] ∧
      (∀ m d, item = ContentItem.image m d →
        name = "view" ∧ b.win32Available = true ∧
          b.captureResult = Except.ok d ∧ m = "image/jpeg") :=
  dispatch_recognized_shape b ts name args w h

/-- Witness for C10 at a successful `view` call. -/
theorem dispatch_single_item_image_only_view_witness :
    ∃ item, (handle_call_tool okBridge sampleStore "view" none w0).1 =
      Except.ok [item] ∧
      (∀ m d, item = ContentItem.image m d →
        "view" = "view" ∧ okBridge.win32Available = true ∧
          okBridge.captureResult = Except.ok d ∧ m = "image/jpeg") :=
  dispatch_single_item_image_only_view okBridge sampleStore "view" none w0
    (by decide)

end Illustrator
